import Mathlib

/-!
Verification development for the `custom-tplink` sensor platform
(`src/custom_components/custom-tplink/sensor.py`).

The Python module is embedded shallowly:

* numeric readings are modelled as rationals (`ℚ`);
* Python's `round(x, n)` (round-half-to-even at `n` decimal digits) is
  modelled by `pyRound`;
* a value of Python type `float | None` is an `Option ℚ`;
* a Python function that may raise is modelled as returning
  `Except String _`, where `.error` stands for a raised exception
  (here only the `AttributeError` that `getattr` can raise);
* the `kasa.SmartDevice` handle is modelled as a record of exactly the
  attributes the module reads: `emeter_realtime` (with its four fields
  `power` / `total` / `voltage` / `current`), `emeter_today`,
  `current_brightness()`, `is_bulb`, and — for the top-level device of
  `async_setup_entry` — `is_dimmable`, `has_emeter`, `is_strip`,
  `children`.
-/

/-- Python `round` to an integer: round half to even (banker's rounding),
modelled on exact rationals. -/
def roundHalfEven (q : ℚ) : ℤ :=
  let n := ⌊q⌋
  let r := q - (n : ℚ)
  if r < 1/2 then n
  else if 1/2 < r then n + 1
  else if n % 2 = 0 then n else n + 1

/-- Python `round(x, p)` for a non-negative digit count `p`. -/
def pyRound (x : ℚ) (p : ℕ) : ℚ :=
  (roundHalfEven (x * 10 ^ p) : ℚ) / 10 ^ p

/-- Python `round(x, p)` where `p : int | None`; `round(x, None)` rounds
to an integer. -/
def pyRoundP (p : Option ℕ) (x : ℚ) : ℚ :=
  match p with
  | some n => pyRound x n
  | none => (roundHalfEven x : ℚ)

/-- The instantaneous metering reading set `device.emeter_realtime`
(kasa `EmeterStatus`): four optional numeric fields. -/
structure EmeterStatus where
  power : Option ℚ
  total : Option ℚ
  voltage : Option ℚ
  current : Option ℚ
deriving DecidableEq, Repr

/-- Python `getattr(emeter_realtime, attr)` for a dynamic field name:
`.error` models the `AttributeError` raised for an unknown name. -/
def EmeterStatus.getattr (e : EmeterStatus) (attr : String) : Except String (Option ℚ) :=
  if attr = "power" then .ok e.power
  else if attr = "total" then .ok e.total
  else if attr = "voltage" then .ok e.voltage
  else if attr = "current" then .ok e.current
  else .error "AttributeError"

/-- A device snapshot: the attributes of `kasa.SmartDevice` that the
derivation functions read, plus `device_id`, the stable identifier that
`legacy_device_id` (imported from the package root, not under `src/`)
extracts from the device. -/
structure SmartDevice where
  emeter_realtime : EmeterStatus
  emeter_today : Option ℚ
  current_brightness : Option ℚ
  is_bulb : Bool
  device_id : String
deriving DecidableEq, Repr

/-- The capability flags and children that `async_setup_entry` reads on
the resolved top-level device. -/
structure ParentDevice extends SmartDevice where
  is_dimmable : Bool
  has_emeter : Bool
  is_strip : Bool
  children : List SmartDevice
deriving DecidableEq, Repr

/-- `TPLinkSensorEntityDescription`: key, display name, unit, optional
`emeter_attr` source-field, optional rounding precision. -/
structure TPLinkSensorEntityDescription where
  key : String
  name : String
  native_unit_of_measurement : String
  emeter_attr : Option String
  precision : Option ℕ
deriving DecidableEq, Repr

/-- Python truthiness of the walrus test `if attr := description.emeter_attr:`
(`None` and the empty string are falsy). -/
def truthyAttr : Option String → Option String
  | some a => if a = "" then none else some a
  | none => none

/-- `ENERGY_SENSORS` entry with key `ATTR_CURRENT_POWER_W`.
The `ATTR_*` key strings come from `.const` / `homeassistant.const`,
which are not under `src/`; their standard values are used. -/
def currentPowerDesc : TPLinkSensorEntityDescription :=
  { key := "current_power_w", name := "Current Consumption",
    native_unit_of_measurement := "W", emeter_attr := some "power",
    precision := some 1 }

/-- `ENERGY_SENSORS` entry with key `ATTR_TOTAL_ENERGY_KWH`. -/
def totalEnergyDesc : TPLinkSensorEntityDescription :=
  { key := "total_energy_kwh", name := "Total Consumption",
    native_unit_of_measurement := "kWh", emeter_attr := some "total",
    precision := some 3 }

/-- `ENERGY_SENSORS` entry with key `ATTR_TODAY_ENERGY_KWH`: the only
descriptor with no `emeter_attr`. -/
def todayEnergyDesc : TPLinkSensorEntityDescription :=
  { key := "today_energy_kwh", name := "Today's Consumption",
    native_unit_of_measurement := "kWh", emeter_attr := none,
    precision := some 3 }

/-- `ENERGY_SENSORS` entry with key `ATTR_VOLTAGE`. -/
def voltageDesc : TPLinkSensorEntityDescription :=
  { key := "voltage", name := "Voltage",
    native_unit_of_measurement := "V", emeter_attr := some "voltage",
    precision := some 1 }

/-- `ENERGY_SENSORS` entry with key `ATTR_CURRENT_A`. -/
def currentADesc : TPLinkSensorEntityDescription :=
  { key := "current_a", name := "Current",
    native_unit_of_measurement := "A", emeter_attr := some "current",
    precision := some 2 }

/-- The fixed catalog `ENERGY_SENSORS`, in source order. -/
def ENERGY_SENSORS : List TPLinkSensorEntityDescription :=
  [currentPowerDesc, totalEnergyDesc, todayEnergyDesc, voltageDesc, currentADesc]

/-- The single `LUX_SENSORS` descriptor: it reuses key
`ATTR_CURRENT_POWER_W` and `emeter_attr = "power"`. -/
def luxDesc : TPLinkSensorEntityDescription :=
  { key := "current_power_w", name := "Light Lux",
    native_unit_of_measurement := "lx", emeter_attr := some "power",
    precision := some 1 }

/-- The fixed catalog `LUX_SENSORS`. -/
def LUX_SENSORS : List TPLinkSensorEntityDescription := [luxDesc]

/-- `async_luxmeter_from_device`: if the descriptor has a truthy
`emeter_attr`, read `device.current_brightness()`; `None` reading gives
`None`, otherwise round to the descriptor precision. With no truthy
`emeter_attr` the function falls through to `return None`. -/
def async_luxmeter_from_device (device : SmartDevice)
    (description : TPLinkSensorEntityDescription) : Except String (Option ℚ) :=
  match truthyAttr description.emeter_attr with
  | some _ =>
    match device.current_brightness with
    | none => .ok none
    | some valy => .ok (some (pyRoundP description.precision valy))
  | none => .ok none

/-- `async_emeter_from_device`: with a truthy `emeter_attr`, dynamic
lookup on `emeter_realtime` (may raise), `None` field gives `None`, else
round. Without one (the today metric): `emeter_today` if present
(rounded), else `None` for bulbs and `0.0` otherwise. -/
def async_emeter_from_device (device : SmartDevice)
    (description : TPLinkSensorEntityDescription) : Except String (Option ℚ) :=
  match truthyAttr description.emeter_attr with
  | some attr =>
    match device.emeter_realtime.getattr attr with
    | .error e => .error e
    | .ok none => .ok none
    | .ok (some val) => .ok (some (pyRoundP description.precision val))
  | none =>
    match device.emeter_today with
    | some emeter_today => .ok (some (pyRoundP description.precision emeter_today))
    | none => .ok (if device.is_bulb then none else some 0)

/-- Modelled from the spec: `legacy_device_id` is imported from the
package root module, which is not under `src/`; per the spec it yields
the "legacy device identifier" of a device, modelled here as the
device's stable identifier field. -/
def legacy_device_id (device : SmartDevice) : String :=
  device.device_id

/-- `SmartPlugSensor`: binds one device to one descriptor. The
coordinator reference is external state not modelled here. -/
structure SmartPlugSensor where
  device : SmartDevice
  entity_description : TPLinkSensorEntityDescription
deriving DecidableEq, Repr

/-- `self._attr_unique_id = f"{legacy_device_id(self.device)}_{key}"`. -/
def SmartPlugSensor.unique_id (s : SmartPlugSensor) : String :=
  legacy_device_id s.device ++ "_" ++ s.entity_description.key

/-- `SmartPlugSensor.native_value`: always re-invokes the energy
derivation. -/
def SmartPlugSensor.native_value (s : SmartPlugSensor) : Except String (Option ℚ) :=
  async_emeter_from_device s.device s.entity_description

/-- `_async_sensors_for_device`: one entity per descriptor whose derived
value is not `None`; a raised exception (`.error`) aborts the
comprehension. -/
def sensorsForDevice
    (deriv : SmartDevice → TPLinkSensorEntityDescription → Except String (Option ℚ)) :
    List TPLinkSensorEntityDescription → SmartDevice →
    Except String (List SmartPlugSensor)
  | [], _ => .ok []
  | d :: rest, device =>
    match deriv device d with
    | .error e => .error e
    | .ok v =>
      match sensorsForDevice deriv rest device with
      | .error e => .error e
      | .ok tail =>
        match v with
        | some _ => .ok (⟨device, d⟩ :: tail)
        | none => .ok tail

/-- The strip branch of `async_setup_entry`: energy entities per child,
concatenated in child order. -/
def stripChildrenSensors : List SmartDevice → Except String (List SmartPlugSensor)
  | [] => .ok []
  | c :: cs =>
    match sensorsForDevice async_emeter_from_device ENERGY_SENSORS c with
    | .error e => .error e
    | .ok es =>
      match stripChildrenSensors cs with
      | .error e => .error e
      | .ok rest => .ok (es ++ rest)

/-- `async_setup_entry`, as the entity list it passes to
`async_add_entities` (the `supported_modules` loop only logs). -/
def async_setup_entry (parent : ParentDevice) : Except String (List SmartPlugSensor) :=
  match (if parent.is_dimmable then
           sensorsForDevice async_luxmeter_from_device LUX_SENSORS parent.toSmartDevice
         else .ok []) with
  | .error e => .error e
  | .ok luxEntities =>
    match (if parent.has_emeter then
             (if parent.is_strip then
                stripChildrenSensors parent.children
              else
                sensorsForDevice async_emeter_from_device ENERGY_SENSORS parent.toSmartDevice)
           else .ok []) with
    | .error e => .error e
    | .ok emeterEntities => .ok (luxEntities ++ emeterEntities)

/-! ### Evaluation lemmas for the derivation functions -/

lemma getattr_power (e : EmeterStatus) : e.getattr "power" = .ok e.power := rfl

lemma getattr_total (e : EmeterStatus) : e.getattr "total" = .ok e.total := rfl

lemma getattr_voltage (e : EmeterStatus) : e.getattr "voltage" = .ok e.voltage := rfl

lemma getattr_current (e : EmeterStatus) : e.getattr "current" = .ok e.current := rfl

lemma emeter_eval_attr (device : SmartDevice) (description : TPLinkSensorEntityDescription)
    (attr : String) (h : truthyAttr description.emeter_attr = some attr) :
    async_emeter_from_device device description =
      (match device.emeter_realtime.getattr attr with
       | .error e => .error e
       | .ok none => .ok none
       | .ok (some val) => .ok (some (pyRoundP description.precision val))) := by
  unfold async_emeter_from_device
  rw [h]

lemma emeter_eval_noattr (device : SmartDevice) (description : TPLinkSensorEntityDescription)
    (h : truthyAttr description.emeter_attr = none) :
    async_emeter_from_device device description =
      .ok (match device.emeter_today with
           | some t => some (pyRoundP description.precision t)
           | none => if device.is_bulb then none else some 0) := by
  unfold async_emeter_from_device
  rw [h]
  cases device.emeter_today <;> rfl

lemma luxmeter_eval_attr (device : SmartDevice) (description : TPLinkSensorEntityDescription)
    (attr : String) (h : truthyAttr description.emeter_attr = some attr) :
    async_luxmeter_from_device device description =
      .ok (device.current_brightness.map (pyRoundP description.precision)) := by
  unfold async_luxmeter_from_device
  rw [h]
  cases device.current_brightness <;> rfl

lemma luxmeter_eval_noattr (device : SmartDevice) (description : TPLinkSensorEntityDescription)
    (h : truthyAttr description.emeter_attr = none) :
    async_luxmeter_from_device device description = .ok none := by
  unfold async_luxmeter_from_device
  rw [h]

lemma emeter_eval_power (device : SmartDevice) :
    async_emeter_from_device device currentPowerDesc =
      .ok (device.emeter_realtime.power.map (pyRoundP currentPowerDesc.precision)) := by
  rw [emeter_eval_attr device currentPowerDesc "power" rfl, getattr_power]
  cases device.emeter_realtime.power <;> rfl

lemma emeter_eval_total (device : SmartDevice) :
    async_emeter_from_device device totalEnergyDesc =
      .ok (device.emeter_realtime.total.map (pyRoundP totalEnergyDesc.precision)) := by
  rw [emeter_eval_attr device totalEnergyDesc "total" rfl, getattr_total]
  cases device.emeter_realtime.total <;> rfl

lemma emeter_eval_voltage (device : SmartDevice) :
    async_emeter_from_device device voltageDesc =
      .ok (device.emeter_realtime.voltage.map (pyRoundP voltageDesc.precision)) := by
  rw [emeter_eval_attr device voltageDesc "voltage" rfl, getattr_voltage]
  cases device.emeter_realtime.voltage <;> rfl

lemma emeter_eval_currentA (device : SmartDevice) :
    async_emeter_from_device device currentADesc =
      .ok (device.emeter_realtime.current.map (pyRoundP currentADesc.precision)) := by
  rw [emeter_eval_attr device currentADesc "current" rfl, getattr_current]
  cases device.emeter_realtime.current <;> rfl

lemma emeter_eval_luxdesc (device : SmartDevice) :
    async_emeter_from_device device luxDesc =
      .ok (device.emeter_realtime.power.map (pyRoundP luxDesc.precision)) := by
  rw [emeter_eval_attr device luxDesc "power" rfl, getattr_power]
  cases device.emeter_realtime.power <;> rfl

lemma emeter_eval_today (device : SmartDevice) :
    async_emeter_from_device device todayEnergyDesc =
      .ok (match device.emeter_today with
           | some t => some (pyRoundP todayEnergyDesc.precision t)
           | none => if device.is_bulb then none else some 0) :=
  emeter_eval_noattr device todayEnergyDesc rfl

lemma luxmeter_eval_luxdesc (device : SmartDevice) :
    async_luxmeter_from_device device luxDesc =
      .ok (device.current_brightness.map (pyRoundP luxDesc.precision)) :=
  luxmeter_eval_attr device luxDesc "power" rfl

/-- Case split for membership in the fixed catalogs. -/
lemma mem_catalog_cases {description : TPLinkSensorEntityDescription}
    (hmem : description ∈ ENERGY_SENSORS ++ LUX_SENSORS) :
    description = currentPowerDesc ∨ description = totalEnergyDesc ∨
    description = todayEnergyDesc ∨ description = voltageDesc ∨
    description = currentADesc ∨ description = luxDesc := by
  simp only [ENERGY_SENSORS, LUX_SENSORS, List.mem_append, List.mem_cons,
    List.not_mem_nil, or_false] at hmem
  tauto

/-- The energy derivation never raises on a catalog descriptor. -/
lemma emeter_ok (device : SmartDevice) (description : TPLinkSensorEntityDescription)
    (hmem : description ∈ ENERGY_SENSORS ++ LUX_SENSORS) :
    ∃ r, async_emeter_from_device device description = .ok r := by
  rcases mem_catalog_cases hmem with rfl | rfl | rfl | rfl | rfl | rfl
  · exact ⟨_, emeter_eval_power device⟩
  · exact ⟨_, emeter_eval_total device⟩
  · exact ⟨_, emeter_eval_today device⟩
  · exact ⟨_, emeter_eval_voltage device⟩
  · exact ⟨_, emeter_eval_currentA device⟩
  · exact ⟨_, emeter_eval_luxdesc device⟩

/-- The illuminance derivation never raises, on any descriptor at all. -/
lemma luxmeter_ok (device : SmartDevice) (description : TPLinkSensorEntityDescription) :
    ∃ r, async_luxmeter_from_device device description = .ok r := by
  unfold async_luxmeter_from_device
  cases truthyAttr description.emeter_attr
  · exact ⟨none, rfl⟩
  · cases device.current_brightness
    · exact ⟨none, rfl⟩
    · exact ⟨_, rfl⟩

/-! ### Concrete devices used by witnesses and counterexamples -/

/-- A plug-style snapshot: instantaneous power and current present, no
cumulative-today reading, brightness reported. -/
def exDev : SmartDevice :=
  { emeter_realtime := ⟨some 10, none, none, some (123456/10000)⟩,
    emeter_today := none, current_brightness := some 50,
    is_bulb := false, device_id := "dev" }

/-- A bulb snapshot with no readings at all. -/
def exBulb : SmartDevice :=
  { emeter_realtime := ⟨none, none, none, none⟩,
    emeter_today := none, current_brightness := none,
    is_bulb := true, device_id := "bulb" }

/-- `round(12.3456, 2) = 12.35` (the spec's worked example). -/
lemma pyRound_example : pyRound (123456/10000) 2 = 1235/100 := by
  unfold pyRound
  have h1 : (123456/10000 : ℚ) * 10 ^ 2 = 123456/100 := by norm_num
  rw [h1]
  have h2 : roundHalfEven (123456/100) = 1235 := by
    unfold roundHalfEven
    have hf : (⌊(123456/100 : ℚ)⌋ : ℤ) = 1234 := by norm_num [Int.floor_eq_iff]
    rw [hf]
    norm_num
  rw [h2]
  norm_num

/-! ### Claim theorems: the two derivation functions -/

/-- C1: for every device snapshot, the energy derivation on the
today-energy descriptor (the catalog entry with no source-field) returns
the cumulative-today reading rounded to the descriptor's precision when
present; when absent it returns absent for a bulb and exactly `0.0`
otherwise (and never raises). -/
theorem C1_today_energy (device : SmartDevice)
    (description : TPLinkSensorEntityDescription)
    (hmem : description ∈ ENERGY_SENSORS)
    (hnoattr : description.emeter_attr = none) :
    async_emeter_from_device device description =
      .ok (match device.emeter_today with
           | some t => some (pyRoundP description.precision t)
           | none => if device.is_bulb then none else some 0) := by
  refine emeter_eval_noattr device description ?_
  rw [hnoattr]
  rfl

/-- Witness for C1: the today descriptor on a bulb with no reading gives
absent; on a non-bulb plug with no reading it gives exactly `0`. -/
theorem C1_today_energy_witness :
    todayEnergyDesc ∈ ENERGY_SENSORS ∧ todayEnergyDesc.emeter_attr = none ∧
    async_emeter_from_device exBulb todayEnergyDesc = .ok none ∧
    async_emeter_from_device exDev todayEnergyDesc = .ok (some 0) := by
  refine ⟨by decide, rfl, ?_, ?_⟩
  · rw [C1_today_energy exBulb todayEnergyDesc (by decide) rfl]
    rfl
  · rw [C1_today_energy exDev todayEnergyDesc (by decide) rfl]
    rfl

/-- C4: for every snapshot and catalog descriptor naming a source-field,
the energy derivation returns absent when the instantaneous reading's
field is absent, and otherwise the field's value rounded to the
descriptor's precision. -/
theorem C4_source_field (device : SmartDevice)
    (description : TPLinkSensorEntityDescription) (attr : String)
    (fieldVal : Option ℚ)
    (hmem : description ∈ ENERGY_SENSORS ++ LUX_SENSORS)
    (hattr : description.emeter_attr = some attr)
    (hget : device.emeter_realtime.getattr attr = .ok fieldVal) :
    async_emeter_from_device device description =
      .ok (fieldVal.map (pyRoundP description.precision)) := by
  have htruthy : truthyAttr description.emeter_attr = some attr := by
    rcases mem_catalog_cases hmem with rfl | rfl | rfl | rfl | rfl | rfl
    · obtain rfl : "power" = attr := Option.some.inj hattr
      rfl
    · obtain rfl : "total" = attr := Option.some.inj hattr
      rfl
    · exact Option.noConfusion hattr
    · obtain rfl : "voltage" = attr := Option.some.inj hattr
      rfl
    · obtain rfl : "current" = attr := Option.some.inj hattr
      rfl
    · obtain rfl : "power" = attr := Option.some.inj hattr
      rfl
  rw [emeter_eval_attr device description attr htruthy, hget]
  cases fieldVal <;> rfl

/-- Witness for C4: the spec's worked example — `current` field raw
`12.3456` with precision-2 descriptor `currentADesc` yields `12.35`. -/
theorem C4_source_field_witness :
    currentADesc ∈ ENERGY_SENSORS ++ LUX_SENSORS ∧
    currentADesc.emeter_attr = some "current" ∧
    exDev.emeter_realtime.getattr "current" = .ok (some (123456/10000)) ∧
    async_emeter_from_device exDev currentADesc = .ok (some (1235/100)) := by
  refine ⟨by decide, rfl, rfl, ?_⟩
  rw [C4_source_field exDev currentADesc "current" (some (123456/10000))
    (by decide) rfl rfl]
  show Except.ok (some (pyRound (123456/10000) 2)) = _
  rw [pyRound_example]

/-- C8: for every snapshot, the illuminance derivation on the lux
descriptor returns absent when the brightness reading is absent, and
otherwise the brightness value rounded to the descriptor's precision. -/
theorem C8_lux_brightness (device : SmartDevice) :
    async_luxmeter_from_device device luxDesc =
      .ok (device.current_brightness.map (pyRoundP luxDesc.precision)) :=
  luxmeter_eval_luxdesc device

/-- C9: on every snapshot and every descriptor of the fixed catalog,
both derivation functions return a value (`.ok`) — numeric or absent —
and never raise; in particular the dynamic field lookup cannot fail. -/
theorem C9_total_no_raise (device : SmartDevice)
    (description : TPLinkSensorEntityDescription)
    (hmem : description ∈ ENERGY_SENSORS ++ LUX_SENSORS) :
    (∃ r, async_emeter_from_device device description = .ok r) ∧
    (∃ r, async_luxmeter_from_device device description = .ok r) :=
  ⟨emeter_ok device description hmem, luxmeter_ok device description⟩

/-- Witness for C9 at the voltage descriptor on a bulb with empty
readings. -/
theorem C9_total_no_raise_witness :
    voltageDesc ∈ ENERGY_SENSORS ++ LUX_SENSORS ∧
    ((∃ r, async_emeter_from_device exBulb voltageDesc = .ok r) ∧
     (∃ r, async_luxmeter_from_device exBulb voltageDesc = .ok r)) :=
  ⟨by decide, C9_total_no_raise exBulb voltageDesc (by decide)⟩

/-- C10: an entity carrying the lux descriptor computes its current
value through the energy derivation: the `power` field of the
instantaneous metering reading rounded to precision 1 — not the
brightness reading. -/
theorem C10_lux_native_value (s : SmartPlugSensor)
    (h : s.entity_description = luxDesc) :
    s.native_value =
      .ok (s.device.emeter_realtime.power.map (fun v => pyRound v 1)) := by
  unfold SmartPlugSensor.native_value
  rw [h]
  exact emeter_eval_luxdesc s.device

/-- Witness for C10: a lux entity on `exDev` reports rounded power `10`,
although the brightness reading is `50`. -/
theorem C10_lux_native_value_witness :
    (SmartPlugSensor.mk exDev luxDesc).entity_description = luxDesc ∧
    (SmartPlugSensor.mk exDev luxDesc).native_value =
      .ok (some (pyRound 10 1)) := by
  refine ⟨rfl, ?_⟩
  rw [C10_lux_native_value (SmartPlugSensor.mk exDev luxDesc) rfl]
  rfl

/-! ### Claim C3: illuminance path versus energy path -/

/-- Modelled from the spec: §4.2 describes the illuminance derivation as
"distinct from 4.1 only in its source reading", i.e. the energy
derivation with the brightness reading substituted for the field read,
including the cumulative-today/bulb/`0.0` branch when the descriptor
names no source-field. -/
def luxmeter_spec (device : SmartDevice)
    (description : TPLinkSensorEntityDescription) : Except String (Option ℚ) :=
  match truthyAttr description.emeter_attr with
  | some _ =>
    match device.current_brightness with
    | none => .ok none
    | some v => .ok (some (pyRoundP description.precision v))
  | none =>
    match device.emeter_today with
    | some t => .ok (some (pyRoundP description.precision t))
    | none => .ok (if device.is_bulb then none else some 0)

/-- Counterexample to C3: on the today-energy descriptor (no
source-field) and a non-bulb snapshot with no cumulative-today reading,
the code's illuminance derivation returns absent while the
"same-branch-as-energy" reading of the spec would return `0.0`. -/
theorem C3_counterexample :
    ¬ (async_luxmeter_from_device exDev todayEnergyDesc =
       luxmeter_spec exDev todayEnergyDesc) := by
  intro h
  exact Option.noConfusion (Except.ok.inj h)

/-- The device with every instantaneous metering field replaced by the
brightness reading: substituting the source reading of the energy path. -/
def brightnessSubstituted (device : SmartDevice) : SmartDevice :=
  { device with
    emeter_realtime :=
      ⟨device.current_brightness, device.current_brightness,
       device.current_brightness, device.current_brightness⟩ }

/-- C3 amended: for every catalog descriptor that names a source-field,
the illuminance derivation equals the energy derivation with the
brightness reading substituted for the instantaneous metering fields;
but on a descriptor with no source-field it returns absent
unconditionally instead of taking the energy path's
cumulative-today/bulb/`0.0` branch. -/
theorem C3_amended (device : SmartDevice)
    (description : TPLinkSensorEntityDescription)
    (hmem : description ∈ ENERGY_SENSORS ++ LUX_SENSORS) :
    (∀ attr, truthyAttr description.emeter_attr = some attr →
      async_luxmeter_from_device device description =
        async_emeter_from_device (brightnessSubstituted device) description) ∧
    (truthyAttr description.emeter_attr = none →
      async_luxmeter_from_device device description = .ok none) := by
  constructor
  · intro attr hattr
    obtain ⟨⟨p, t, v, c⟩, td, br, bulb, did⟩ := device
    rw [luxmeter_eval_attr _ description attr hattr,
      emeter_eval_attr _ description attr hattr]
    rcases mem_catalog_cases hmem with rfl | rfl | rfl | rfl | rfl | rfl <;>
      first
      | exact Option.noConfusion hattr
      | (obtain rfl : attr = "power" := (Option.some.inj hattr).symm
         cases br <;> rfl)
      | (obtain rfl : attr = "total" := (Option.some.inj hattr).symm
         cases br <;> rfl)
      | (obtain rfl : attr = "voltage" := (Option.some.inj hattr).symm
         cases br <;> rfl)
      | (obtain rfl : attr = "current" := (Option.some.inj hattr).symm
         cases br <;> rfl)
  · intro hattr
    exact luxmeter_eval_noattr device description hattr

/-- Witness for C3 amended at the voltage descriptor: both paths agree
once the brightness reading is substituted for the metering fields. -/
theorem C3_amended_witness :
    voltageDesc ∈ ENERGY_SENSORS ++ LUX_SENSORS ∧
    truthyAttr voltageDesc.emeter_attr = some "voltage" ∧
    async_luxmeter_from_device exDev voltageDesc =
      async_emeter_from_device (brightnessSubstituted exDev) voltageDesc :=
  ⟨by decide, rfl, (C3_amended exDev voltageDesc (by decide)).1 "voltage" rfl⟩

/-! ### Structure of the entity lists built by the setup routine -/

lemma sensorsForDevice_ok_spec
    {deriv : SmartDevice → TPLinkSensorEntityDescription → Except String (Option ℚ)} :
    ∀ (descs : List TPLinkSensorEntityDescription) (device : SmartDevice)
      (es : List SmartPlugSensor),
      sensorsForDevice deriv descs device = .ok es →
      ∃ sub : List TPLinkSensorEntityDescription,
        sub.Sublist descs ∧
        es = sub.map (fun d => ⟨device, d⟩) ∧
        ∀ d ∈ sub, ∃ w, deriv device d = .ok (some w) := by
  intro descs
  induction descs with
  | nil =>
    intro device es h
    obtain rfl : ([] : List SmartPlugSensor) = es := Except.ok.inj h
    exact ⟨[], List.nil_sublist _, rfl, fun d hd => absurd hd (List.not_mem_nil d)⟩
  | cons d rest ih =>
    intro device es h
    rw [sensorsForDevice] at h
    cases hder : deriv device d with
    | error e => rw [hder] at h; exact Except.noConfusion h
    | ok v =>
      rw [hder] at h
      cases htail : sensorsForDevice deriv rest device with
      | error e => rw [htail] at h; cases v <;> exact Except.noConfusion h
      | ok tail =>
        rw [htail] at h
        obtain ⟨sub, hsub, rfl, hall⟩ := ih device tail htail
        cases v with
        | some w =>
          obtain rfl :
              (⟨device, d⟩ :: sub.map (fun k => ⟨device, k⟩) : List SmartPlugSensor) = es :=
            Except.ok.inj h
          refine ⟨d :: sub, List.Sublist.cons₂ d hsub, rfl, ?_⟩
          intro x hx
          rcases List.mem_cons.mp hx with rfl | hx'
          · exact ⟨w, hder⟩
          · exact hall x hx'
        | none =>
          obtain rfl : sub.map (fun k => (⟨device, k⟩ : SmartPlugSensor)) = es :=
            Except.ok.inj h
          exact ⟨sub, List.Sublist.cons d hsub, rfl, hall⟩

lemma mem_sensorsForDevice
    {deriv : SmartDevice → TPLinkSensorEntityDescription → Except String (Option ℚ)}
    {descs : List TPLinkSensorEntityDescription} {device : SmartDevice}
    {es : List SmartPlugSensor} {e : SmartPlugSensor}
    (h : sensorsForDevice deriv descs device = .ok es) (he : e ∈ es) :
    e.device = device ∧ e.entity_description ∈ descs ∧
    ∃ w, deriv device e.entity_description = .ok (some w) := by
  obtain ⟨sub, hsub, rfl, hall⟩ := sensorsForDevice_ok_spec descs device es h
  obtain ⟨d, hd, rfl⟩ := List.mem_map.mp he
  exact ⟨rfl, hsub.subset hd, hall d hd⟩

lemma mem_stripChildrenSensors :
    ∀ {cs : List SmartDevice} {es : List SmartPlugSensor} {e : SmartPlugSensor},
      stripChildrenSensors cs = .ok es → e ∈ es →
      e.device ∈ cs ∧ e.entity_description ∈ ENERGY_SENSORS ∧
      ∃ w, async_emeter_from_device e.device e.entity_description = .ok (some w) := by
  intro cs
  induction cs with
  | nil =>
    intro es e h he
    obtain rfl : ([] : List SmartPlugSensor) = es := Except.ok.inj h
    exact absurd he (List.not_mem_nil e)
  | cons c cs ih =>
    intro es e h he
    rw [stripChildrenSensors] at h
    cases hc : sensorsForDevice async_emeter_from_device ENERGY_SENSORS c with
    | error err => rw [hc] at h; exact Except.noConfusion h
    | ok esc =>
      rw [hc] at h
      cases hrest : stripChildrenSensors cs with
      | error err => rw [hrest] at h; exact Except.noConfusion h
      | ok rest =>
        rw [hrest] at h
        obtain rfl : esc ++ rest = es := Except.ok.inj h
        rcases List.mem_append.mp he with h1 | h2
        · obtain ⟨hdev, hdesc, hval⟩ := mem_sensorsForDevice hc h1
          refine ⟨?_, hdesc, ?_⟩
          · rw [hdev]; exact List.mem_cons_self c cs
          · rw [hdev]; exact hval
        · obtain ⟨h1, h2, h3⟩ := ih hrest h2
          exact ⟨List.mem_cons_of_mem c h1, h2, h3⟩

/-- The split of the setup output into its lux part and its energy part,
according to the capability flags of the parent. -/
lemma async_setup_entry_ok_split {parent : ParentDevice} {es : List SmartPlugSensor}
    (h : async_setup_entry parent = .ok es) :
    ∃ lux em, es = lux ++ em ∧
      ((parent.is_dimmable = true ∧
        sensorsForDevice async_luxmeter_from_device LUX_SENSORS parent.toSmartDevice =
          .ok lux) ∨
       (parent.is_dimmable = false ∧ lux = [])) ∧
      ((parent.has_emeter = true ∧ parent.is_strip = true ∧
        stripChildrenSensors parent.children = .ok em) ∨
       (parent.has_emeter = true ∧ parent.is_strip = false ∧
        sensorsForDevice async_emeter_from_device ENERGY_SENSORS parent.toSmartDevice =
          .ok em) ∨
       (parent.has_emeter = false ∧ em = [])) := by
  unfold async_setup_entry at h
  cases hdim : parent.is_dimmable <;> rw [hdim] at h
  · rw [if_neg Bool.false_ne_true] at h
    cases hem : parent.has_emeter <;> rw [hem] at h
    · rw [if_neg Bool.false_ne_true] at h
      obtain rfl : ([] ++ [] : List SmartPlugSensor) = es := Except.ok.inj h
      exact ⟨[], [], rfl, Or.inr ⟨rfl, rfl⟩, Or.inr (Or.inr ⟨rfl, rfl⟩)⟩
    · rw [if_pos rfl] at h
      cases hst : parent.is_strip <;> rw [hst] at h
      · rw [if_neg Bool.false_ne_true] at h
        cases hemok : sensorsForDevice async_emeter_from_device ENERGY_SENSORS
            parent.toSmartDevice with
        | error err => rw [hemok] at h; exact Except.noConfusion h
        | ok em =>
          rw [hemok] at h
          obtain rfl : [] ++ em = es := Except.ok.inj h
          exact ⟨[], em, rfl, Or.inr ⟨rfl, rfl⟩, Or.inr (Or.inl ⟨rfl, rfl, rfl⟩)⟩
      · rw [if_pos rfl] at h
        cases hemok : stripChildrenSensors parent.children with
        | error err => rw [hemok] at h; exact Except.noConfusion h
        | ok em =>
          rw [hemok] at h
          obtain rfl : [] ++ em = es := Except.ok.inj h
          exact ⟨[], em, rfl, Or.inr ⟨rfl, rfl⟩, Or.inl ⟨rfl, rfl, rfl⟩⟩
  · rw [if_pos rfl] at h
    cases hluxok : sensorsForDevice async_luxmeter_from_device LUX_SENSORS
        parent.toSmartDevice with
    | error err => rw [hluxok] at h; exact Except.noConfusion h
    | ok lux =>
      rw [hluxok] at h
      cases hem : parent.has_emeter <;> rw [hem] at h
      · rw [if_neg Bool.false_ne_true] at h
        obtain rfl : lux ++ [] = es := Except.ok.inj h
        exact ⟨lux, [], rfl, Or.inl ⟨rfl, rfl⟩, Or.inr (Or.inr ⟨rfl, rfl⟩)⟩
      · rw [if_pos rfl] at h
        cases hst : parent.is_strip <;> rw [hst] at h
        · rw [if_neg Bool.false_ne_true] at h
          cases hemok : sensorsForDevice async_emeter_from_device ENERGY_SENSORS
              parent.toSmartDevice with
          | error err => rw [hemok] at h; exact Except.noConfusion h
          | ok em =>
            rw [hemok] at h
            obtain rfl : lux ++ em = es := Except.ok.inj h
            exact ⟨lux, em, rfl, Or.inl ⟨rfl, rfl⟩, Or.inr (Or.inl ⟨rfl, rfl, rfl⟩)⟩
        · rw [if_pos rfl] at h
          cases hemok : stripChildrenSensors parent.children with
          | error err => rw [hemok] at h; exact Except.noConfusion h
          | ok em =>
            rw [hemok] at h
            obtain rfl : lux ++ em = es := Except.ok.inj h
            exact ⟨lux, em, rfl, Or.inl ⟨rfl, rfl⟩, Or.inl ⟨rfl, rfl, rfl⟩⟩

/-! ### Catalog facts -/

lemma luxDesc_not_in_energy : luxDesc ∉ ENERGY_SENSORS := by decide

lemma energy_not_in_lux : ∀ d ∈ ENERGY_SENSORS, d ∉ LUX_SENSORS := by decide

/-! ### Witness device trees -/

/-- A non-strip metering, non-dimmable parent over `exDev`. -/
def wPlain : ParentDevice :=
  { toSmartDevice := exDev, is_dimmable := false, has_emeter := true,
    is_strip := false, children := [] }

/-- The entity list the setup produces for `wPlain`. -/
def wPlainEntities : List SmartPlugSensor :=
  [⟨exDev, currentPowerDesc⟩, ⟨exDev, todayEnergyDesc⟩, ⟨exDev, currentADesc⟩]

/-- First strip child: instantaneous power only. -/
def childA : SmartDevice :=
  { emeter_realtime := ⟨some 3, none, none, none⟩, emeter_today := none,
    current_brightness := none, is_bulb := false, device_id := "a" }

/-- Second strip child: cumulative readings only. -/
def childB : SmartDevice :=
  { emeter_realtime := ⟨none, some 4, none, none⟩, emeter_today := some 2,
    current_brightness := none, is_bulb := false, device_id := "b" }

/-- The strip's own snapshot: brightness only. -/
def stripDev : SmartDevice :=
  { emeter_realtime := ⟨none, none, none, none⟩, emeter_today := none,
    current_brightness := some 50, is_bulb := false, device_id := "p" }

/-- A dimmable metering strip with two children. -/
def wStrip : ParentDevice :=
  { toSmartDevice := stripDev, is_dimmable := true, has_emeter := true,
    is_strip := true, children := [childA, childB] }

/-- The entity list the setup produces for `wStrip`. -/
def wStripEntities : List SmartPlugSensor :=
  [⟨stripDev, luxDesc⟩, ⟨childA, currentPowerDesc⟩, ⟨childA, todayEnergyDesc⟩,
   ⟨childB, totalEnergyDesc⟩, ⟨childB, todayEnergyDesc⟩]

/-! ### Claim theorems: entity enumeration -/

/-- C5: every entity in the setup output was filtered through the
matching derivation function (illuminance for the lux descriptor, energy
for the energy descriptors) and that derivation, on the bound device,
yields a non-absent value. -/
theorem C5_entities_filtered (parent : ParentDevice) (es : List SmartPlugSensor)
    (e : SmartPlugSensor) (h : async_setup_entry parent = .ok es) (he : e ∈ es) :
    (e.entity_description ∈ LUX_SENSORS ∧
      ∃ w, async_luxmeter_from_device e.device e.entity_description = .ok (some w)) ∨
    (e.entity_description ∈ ENERGY_SENSORS ∧
      ∃ w, async_emeter_from_device e.device e.entity_description = .ok (some w)) := by
  obtain ⟨lux, em, rfl, hlux, hem⟩ := async_setup_entry_ok_split h
  rcases List.mem_append.mp he with h1 | h2
  · rcases hlux with ⟨-, hluxok⟩ | ⟨-, rfl⟩
    · obtain ⟨hdev, hdesc, w, hw⟩ := mem_sensorsForDevice hluxok h1
      exact Or.inl ⟨hdesc, w, by rw [hdev]; exact hw⟩
    · exact absurd h1 (List.not_mem_nil e)
  · rcases hem with ⟨-, -, hemok⟩ | ⟨-, -, hemok⟩ | ⟨-, rfl⟩
    · obtain ⟨hdev, hdesc, hw⟩ := mem_stripChildrenSensors hemok h2
      exact Or.inr ⟨hdesc, hw⟩
    · obtain ⟨hdev, hdesc, w, hw⟩ := mem_sensorsForDevice hemok h2
      exact Or.inr ⟨hdesc, w, by rw [hdev]; exact hw⟩
    · exact absurd h2 (List.not_mem_nil e)

/-- Witness for C5 on the strip tree, at the entity bound to the first
child with the current-power descriptor. -/
theorem C5_entities_filtered_witness :
    async_setup_entry wStrip = .ok wStripEntities ∧
    ((⟨childA, currentPowerDesc⟩ : SmartPlugSensor) ∈ wStripEntities) ∧
    (((⟨childA, currentPowerDesc⟩ : SmartPlugSensor).entity_description ∈ LUX_SENSORS ∧
      ∃ w, async_luxmeter_from_device childA currentPowerDesc = .ok (some w)) ∨
     ((⟨childA, currentPowerDesc⟩ : SmartPlugSensor).entity_description ∈ ENERGY_SENSORS ∧
      ∃ w, async_emeter_from_device childA currentPowerDesc = .ok (some w))) :=
  ⟨rfl, List.mem_cons_of_mem _ (List.mem_cons_self _ _),
   C5_entities_filtered wStrip wStripEntities ⟨childA, currentPowerDesc⟩ rfl
     (List.mem_cons_of_mem _ (List.mem_cons_self _ _))⟩

/-- C6: on a metering device, energy entities are bound to the children
when the device is a strip (never to the parent itself), and to the
device itself otherwise. -/
theorem C6_strip_binding (parent : ParentDevice) (es : List SmartPlugSensor)
    (e : SmartPlugSensor) (h : async_setup_entry parent = .ok es)
    (hcap : parent.has_emeter = true) (he : e ∈ es)
    (hdesc : e.entity_description ∈ ENERGY_SENSORS) :
    (parent.is_strip = true →
      e.device ∈ parent.children ∧
      (parent.toSmartDevice ∉ parent.children → e.device ≠ parent.toSmartDevice)) ∧
    (parent.is_strip = false → e.device = parent.toSmartDevice) := by
  obtain ⟨lux, em, rfl, hlux, hembr⟩ := async_setup_entry_ok_split h
  rcases List.mem_append.mp he with h1 | h2
  · rcases hlux with ⟨-, hluxok⟩ | ⟨-, rfl⟩
    · obtain ⟨-, hdesc', -⟩ := mem_sensorsForDevice hluxok h1
      rw [List.mem_singleton.mp hdesc'] at hdesc
      exact absurd hdesc luxDesc_not_in_energy
    · exact absurd h1 (List.not_mem_nil e)
  · rcases hembr with ⟨-, hst, hemok⟩ | ⟨-, hst, hemok⟩ | ⟨hemf, -⟩
    · obtain ⟨hdev, -, -⟩ := mem_stripChildrenSensors hemok h2
      constructor
      · intro _
        refine ⟨hdev, fun hnp hEq => hnp ?_⟩
        rw [← hEq]
        exact hdev
      · intro hfalse
        rw [hst] at hfalse
        exact absurd hfalse (by simp)
    · obtain ⟨hdev, -, -⟩ := mem_sensorsForDevice hemok h2
      constructor
      · intro htrue
        rw [hst] at htrue
        exact absurd htrue (by simp)
      · intro _
        exact hdev
    · rw [hemf] at hcap
      exact absurd hcap (by simp)

/-- Witness for C6 on the strip tree: the current-power entity is bound
to the first child, not to the strip itself. -/
theorem C6_strip_binding_witness :
    async_setup_entry wStrip = .ok wStripEntities ∧ wStrip.has_emeter = true ∧
    ((wStrip.is_strip = true →
      childA ∈ wStrip.children ∧
      (wStrip.toSmartDevice ∉ wStrip.children → childA ≠ wStrip.toSmartDevice)) ∧
     (wStrip.is_strip = false → childA = wStrip.toSmartDevice)) :=
  ⟨rfl, rfl,
   C6_strip_binding wStrip wStripEntities ⟨childA, currentPowerDesc⟩ rfl rfl
     (List.mem_cons_of_mem _ (List.mem_cons_self _ _)) (by decide)⟩

/-- C7: the setup creates no lux entity for a non-dimmable device and no
energy entity for a device without metering capability. -/
theorem C7_capability_gating (parent : ParentDevice) (es : List SmartPlugSensor)
    (e : SmartPlugSensor) (h : async_setup_entry parent = .ok es) (he : e ∈ es) :
    (parent.is_dimmable = false → e.entity_description ∉ LUX_SENSORS) ∧
    (parent.has_emeter = false → e.entity_description ∉ ENERGY_SENSORS) := by
  obtain ⟨lux, em, rfl, hlux, hembr⟩ := async_setup_entry_ok_split h
  constructor
  · intro hdimf hmemLux
    rcases List.mem_append.mp he with h1 | h2
    · rcases hlux with ⟨hdimt, -⟩ | ⟨-, rfl⟩
      · rw [hdimf] at hdimt
        exact absurd hdimt (by simp)
      · exact absurd h1 (List.not_mem_nil e)
    · rcases hembr with ⟨-, -, hemok⟩ | ⟨-, -, hemok⟩ | ⟨-, rfl⟩
      · obtain ⟨-, hdesc, -⟩ := mem_stripChildrenSensors hemok h2
        exact energy_not_in_lux _ hdesc hmemLux
      · obtain ⟨-, hdesc, -⟩ := mem_sensorsForDevice hemok h2
        exact energy_not_in_lux _ hdesc hmemLux
      · exact absurd h2 (List.not_mem_nil e)
  · intro hemf hmemEn
    rcases List.mem_append.mp he with h1 | h2
    · rcases hlux with ⟨-, hluxok⟩ | ⟨-, rfl⟩
      · obtain ⟨-, hdesc', -⟩ := mem_sensorsForDevice hluxok h1
        rw [List.mem_singleton.mp hdesc'] at hmemEn
        exact absurd hmemEn luxDesc_not_in_energy
      · exact absurd h1 (List.not_mem_nil e)
    · rcases hembr with ⟨hemt, -, -⟩ | ⟨hemt, -, -⟩ | ⟨-, rfl⟩
      · rw [hemf] at hemt
        exact absurd hemt (by simp)
      · rw [hemf] at hemt
        exact absurd hemt (by simp)
      · exact absurd h2 (List.not_mem_nil e)

/-- Witness for C7 on the non-dimmable plug: its current-power entity is
not a lux entity. -/
theorem C7_capability_gating_witness :
    async_setup_entry wPlain = .ok wPlainEntities ∧ wPlain.is_dimmable = false ∧
    (⟨exDev, currentPowerDesc⟩ : SmartPlugSensor).entity_description ∉ LUX_SENSORS :=
  ⟨rfl, rfl,
   (C7_capability_gating wPlain wPlainEntities ⟨exDev, currentPowerDesc⟩ rfl
     (List.mem_cons_self _ _)).1 rfl⟩

/-! ### Uniqueness of entity identifiers (C2) -/

/-- All descriptor keys that can appear on an entity. -/
def ALL_KEYS : List String :=
  ["current_power_w", "total_energy_kwh", "today_energy_kwh", "voltage", "current_a"]

/-- The identity of an entity before concatenation: legacy device
identifier paired with the descriptor key. -/
def entityTag (e : SmartPlugSensor) : String × String :=
  (legacy_device_id e.device, e.entity_description.key)

lemma ne_of_append_getLast {l1 l2 m1 m2 : List Char} {c1 c2 : Char}
    (hm1 : m1.getLast? = some c1) (hm2 : m2.getLast? = some c2) (hc : c1 ≠ c2) :
    l1 ++ m1 ≠ l2 ++ m2 := by
  intro h
  have h' := congrArg List.getLast? h
  rw [List.getLast?_append, List.getLast?_append, hm1, hm2] at h'
  exact hc (Option.some.inj (show some c1 = some c2 from h'))

/-- Concatenating a device identifier, an underscore and one of the
fixed keys is injective in the pair, for arbitrary identifiers. -/
lemma tag_append_inj (i1 i2 k1 k2 : String) (h1 : k1 ∈ ALL_KEYS) (h2 : k2 ∈ ALL_KEYS)
    (h : i1 ++ "_" ++ k1 = i2 ++ "_" ++ k2) : i1 = i2 ∧ k1 = k2 := by
  have hd : i1.data ++ ('_' :: k1.data) = i2.data ++ ('_' :: k2.data) := by
    have hq := congrArg String.data h
    simp only [String.data_append, List.append_assoc] at hq
    exact hq
  simp only [ALL_KEYS, List.mem_cons, List.not_mem_nil, or_false] at h1 h2
  rcases h1 with rfl | rfl | rfl | rfl | rfl <;>
    rcases h2 with rfl | rfl | rfl | rfl | rfl <;>
      first
      | exact ⟨String.ext (List.append_inj' hd rfl).1, rfl⟩
      | exact absurd hd (ne_of_append_getLast rfl rfl (by decide))
      | exact absurd (List.append_inj' hd rfl).2 (by decide)

/-- Distinct tags with catalog keys yield distinct concatenated
identifiers. -/
lemma nodup_uid_of_nodup_tags {es : List SmartPlugSensor}
    (hkeys : ∀ e ∈ es, e.entity_description.key ∈ ALL_KEYS)
    (htags : (es.map entityTag).Nodup) :
    (es.map SmartPlugSensor.unique_id).Nodup := by
  have hmap : es.map SmartPlugSensor.unique_id =
      (es.map entityTag).map (fun t => t.1 ++ "_" ++ t.2) := by
    rw [List.map_map]
    rfl
  rw [hmap]
  refine List.Nodup.map_on ?_ htags
  intro x hx y hy hxy
  obtain ⟨ex, hex, rfl⟩ := List.mem_map.mp hx
  obtain ⟨ey, hey, rfl⟩ := List.mem_map.mp hy
  obtain ⟨ha, hb⟩ := tag_append_inj _ _ _ _ (hkeys ex hex) (hkeys ey hey) hxy
  exact Prod.ext ha hb

lemma energy_keys_nodup :
    (ENERGY_SENSORS.map TPLinkSensorEntityDescription.key).Nodup := by decide

lemma lux_keys_nodup :
    (LUX_SENSORS.map TPLinkSensorEntityDescription.key).Nodup := by decide

lemma energy_key_mem : ∀ d ∈ ENERGY_SENSORS, d.key ∈ ALL_KEYS := by decide

lemma luxdesc_key_mem : luxDesc.key ∈ ALL_KEYS := by decide

lemma energy_power_key :
    ∀ d ∈ ENERGY_SENSORS, d.key = "current_power_w" → d = currentPowerDesc := by decide

lemma sensorsForDevice_tags_nodup
    {deriv : SmartDevice → TPLinkSensorEntityDescription → Except String (Option ℚ)}
    {descs : List TPLinkSensorEntityDescription} {device : SmartDevice}
    {es : List SmartPlugSensor}
    (hkeys : (descs.map TPLinkSensorEntityDescription.key).Nodup)
    (h : sensorsForDevice deriv descs device = .ok es) :
    (es.map entityTag).Nodup := by
  obtain ⟨sub, hsub, rfl, -⟩ := sensorsForDevice_ok_spec descs device es h
  rw [List.map_map]
  have hc : (entityTag ∘ fun d => (⟨device, d⟩ : SmartPlugSensor)) =
      (fun k => (legacy_device_id device, k)) ∘ TPLinkSensorEntityDescription.key := rfl
  rw [hc, ← List.map_map]
  refine List.Nodup.map (fun a b hab => congrArg Prod.snd hab)
    (hkeys.sublist (hsub.map _))

lemma stripChildrenSensors_tags_nodup :
    ∀ {cs : List SmartDevice} {es : List SmartPlugSensor},
      stripChildrenSensors cs = .ok es →
      (cs.map SmartDevice.device_id).Nodup →
      (es.map entityTag).Nodup := by
  intro cs
  induction cs with
  | nil =>
    intro es h _
    obtain rfl : ([] : List SmartPlugSensor) = es := Except.ok.inj h
    exact List.nodup_nil
  | cons c cs ih =>
    intro es h hids
    rw [stripChildrenSensors] at h
    cases hc : sensorsForDevice async_emeter_from_device ENERGY_SENSORS c with
    | error err => rw [hc] at h; exact Except.noConfusion h
    | ok esc =>
      rw [hc] at h
      cases hrest : stripChildrenSensors cs with
      | error err => rw [hrest] at h; exact Except.noConfusion h
      | ok rest =>
        rw [hrest] at h
        obtain rfl : esc ++ rest = es := Except.ok.inj h
        rw [List.map_append]
        obtain ⟨hnotmem, htail⟩ := List.nodup_cons.mp hids
        refine List.Nodup.append (sensorsForDevice_tags_nodup energy_keys_nodup hc)
          (ih hrest htail) ?_
        intro t ht1 ht2
        obtain ⟨e1, he1, rfl⟩ := List.mem_map.mp ht1
        obtain ⟨e2, he2, heq⟩ := List.mem_map.mp ht2
        have hd1 : e1.device = c := (mem_sensorsForDevice hc he1).1
        have hd2 : e2.device ∈ cs := (mem_stripChildrenSensors hrest he2).1
        apply hnotmem
        have hfst : e2.device.device_id = e1.device.device_id := congrArg Prod.fst heq
        rw [hd1] at hfst
        rw [← hfst]
        exact List.mem_map_of_mem SmartDevice.device_id hd2

/-- The dimmable, metering, non-strip parent on which the setup emits a
duplicated identifier. -/
def cexParent : ParentDevice :=
  { toSmartDevice := exDev, is_dimmable := true, has_emeter := true,
    is_strip := false, children := [] }

/-- The entity list the setup produces for `cexParent`. -/
def cexEntities : List SmartPlugSensor :=
  [⟨exDev, luxDesc⟩, ⟨exDev, currentPowerDesc⟩, ⟨exDev, todayEnergyDesc⟩,
   ⟨exDev, currentADesc⟩]

/-- Counterexample to C2 as stated: on a device that is both dimmable
and metering-capable (non-strip) with brightness and power readings
present, the lux entity and the current-power energy entity both get
identifier `dev_current_power_w`, so the identifier list is not
pairwise distinct. -/
theorem C2_counterexample :
    async_setup_entry cexParent = .ok cexEntities ∧
    ¬ (cexEntities.map SmartPlugSensor.unique_id).Nodup :=
  ⟨rfl, by decide⟩

/-- C2 amended: the external identifiers of the setup output are
pairwise distinct provided the legacy identifiers in the tree are
distinct (children pairwise, and the parent from the children) and the
device is not simultaneously dimmable and non-strip metering-capable
with both the brightness and the instantaneous power readings present —
in that excluded configuration the lux descriptor and the current-power
energy descriptor, which share the same key, produce two entities with
the same identifier on the same device. -/
theorem C2_amended (parent : ParentDevice) (es : List SmartPlugSensor)
    (h : async_setup_entry parent = .ok es)
    (hcids : (parent.children.map SmartDevice.device_id).Nodup)
    (hpid : parent.device_id ∉ parent.children.map SmartDevice.device_id)
    (hnc : ¬(parent.is_dimmable = true ∧ parent.has_emeter = true ∧
             parent.is_strip = false ∧ parent.current_brightness ≠ none ∧
             parent.emeter_realtime.power ≠ none)) :
    (es.map SmartPlugSensor.unique_id).Nodup := by
  obtain ⟨lux, em, rfl, hlux, hembr⟩ := async_setup_entry_ok_split h
  refine nodup_uid_of_nodup_tags ?_ ?_
  · intro e he
    rcases List.mem_append.mp he with h1 | h2
    · rcases hlux with ⟨-, hluxok⟩ | ⟨-, rfl⟩
      · obtain ⟨-, hdesc, -⟩ := mem_sensorsForDevice hluxok h1
        rw [List.mem_singleton.mp hdesc]
        exact luxdesc_key_mem
      · exact absurd h1 (List.not_mem_nil e)
    · rcases hembr with ⟨-, -, hemok⟩ | ⟨-, -, hemok⟩ | ⟨-, rfl⟩
      · obtain ⟨-, hdesc, -⟩ := mem_stripChildrenSensors hemok h2
        exact energy_key_mem _ hdesc
      · obtain ⟨-, hdesc, -⟩ := mem_sensorsForDevice hemok h2
        exact energy_key_mem _ hdesc
      · exact absurd h2 (List.not_mem_nil e)
  · rw [List.map_append]
    refine List.Nodup.append ?_ ?_ ?_
    · rcases hlux with ⟨-, hluxok⟩ | ⟨-, rfl⟩
      · exact sensorsForDevice_tags_nodup lux_keys_nodup hluxok
      · exact List.nodup_nil
    · rcases hembr with ⟨-, -, hemok⟩ | ⟨-, -, hemok⟩ | ⟨-, rfl⟩
      · exact stripChildrenSensors_tags_nodup hemok hcids
      · exact sensorsForDevice_tags_nodup energy_keys_nodup hemok
      · exact List.nodup_nil
    · intro t ht1 ht2
      rcases hlux with ⟨hdim, hluxok⟩ | ⟨-, rfl⟩
      · obtain ⟨e1, he1, rfl⟩ := List.mem_map.mp ht1
        obtain ⟨hd1, hdesc1, hval1⟩ := mem_sensorsForDevice hluxok he1
        have hdesc1e : e1.entity_description = luxDesc := List.mem_singleton.mp hdesc1
        rcases hembr with ⟨hem, hst, hemok⟩ | ⟨hem, hst, hemok⟩ | ⟨-, rfl⟩
        · obtain ⟨e2, he2, heq⟩ := List.mem_map.mp ht2
          obtain ⟨hd2, -, -⟩ := mem_stripChildrenSensors hemok he2
          apply hpid
          have hfst : e2.device.device_id = e1.device.device_id := congrArg Prod.fst heq
          rw [hd1] at hfst
          rw [← hfst]
          exact List.mem_map_of_mem SmartDevice.device_id hd2
        · obtain ⟨e2, he2, heq⟩ := List.mem_map.mp ht2
          obtain ⟨hd2, hdesc2, hval2⟩ := mem_sensorsForDevice hemok he2
          have hsnd : e2.entity_description.key = e1.entity_description.key :=
            congrArg Prod.snd heq
          rw [hdesc1e] at hsnd
          have he2desc : e2.entity_description = currentPowerDesc :=
            energy_power_key _ hdesc2 hsnd
          apply hnc
          refine ⟨hdim, hem, hst, ?_, ?_⟩
          · obtain ⟨w, hw⟩ := hval1
            rw [hdesc1e, luxmeter_eval_luxdesc] at hw
            intro hbn
            rw [hbn] at hw
            exact Option.noConfusion (Except.ok.inj hw)
          · obtain ⟨w, hw⟩ := hval2
            rw [he2desc, emeter_eval_power] at hw
            intro hpn
            rw [hpn] at hw
            exact Option.noConfusion (Except.ok.inj hw)
        · exact absurd ht2 (List.not_mem_nil _)
      · exact absurd ht1 (List.not_mem_nil _)

/-- Witness for C2 amended on the dimmable strip tree: all five entity
identifiers are distinct. -/
theorem C2_amended_witness :
    async_setup_entry wStrip = .ok wStripEntities ∧
    (wStrip.children.map SmartDevice.device_id).Nodup ∧
    wStrip.device_id ∉ wStrip.children.map SmartDevice.device_id ∧
    ¬(wStrip.is_dimmable = true ∧ wStrip.has_emeter = true ∧
      wStrip.is_strip = false ∧ wStrip.current_brightness ≠ none ∧
      wStrip.emeter_realtime.power ≠ none) ∧
    (wStripEntities.map SmartPlugSensor.unique_id).Nodup :=
  ⟨rfl, by decide, by decide, by decide,
   C2_amended wStrip wStripEntities rfl (by decide) (by decide) (by decide)⟩
